import Mathlib

/-!
Verification of the NumLab-VPN file-distribution backend (src/server.js).

The registry state is the JSON-persisted list of file records. Timestamps are
modelled as integers (milliseconds since epoch); JavaScript string truthiness
(undefined or empty string is falsy) is modelled explicitly on Option String.
HTTP outcomes are modelled as inductive result types carrying the status code.
-/

namespace NumLab

/-- One entry of the persisted record list (data/files.json), with the fields
written by POST /api/admin/files in server.js. -/
structure FileRecord where
  id : String
  filename : String
  storedFilename : String
  name : String
  network : String
  expiryDate : Int
  size : String
  description : String
  downloadCount : Nat
  createdAt : Int
deriving Repr, DecidableEq

/-- The public projection returned by GET /api/files: exactly the fields the
route copies into publicFiles. It has no storedFilename field (and no
filename or createdAt), so the stored on-disk key cannot appear in a listing. -/
structure PublicFile where
  id : String
  name : String
  network : String
  expiryDate : Int
  size : String
  downloadCount : Nat
  isExpired : Bool
  description : String
deriving Repr, DecidableEq

/-- JavaScript truthiness of an optional string: undefined and the empty
string are falsy, every other string is truthy. -/
def truthyStr : Option String → Bool
  | none => false
  | some s => s ≠ ""

/-- JavaScript String.prototype.trim: strips leading and trailing
whitespace. Implemented structurally over the character list so that it
evaluates inside the kernel. -/
def jsTrim (s : String) : String :=
  ⟨((s.data.dropWhile Char.isWhitespace).reverse.dropWhile
      Char.isWhitespace).reverse⟩

/-- The per-record mapping of GET /api/files: copies the public fields and
derives isExpired from the comparison new Date(file.expiryDate) < now. -/
def toPublicFile (now : Int) (f : FileRecord) : PublicFile :=
  { id := f.id
    name := f.name
    network := f.network
    expiryDate := f.expiryDate
    size := f.size
    downloadCount := f.downloadCount
    isExpired := decide (f.expiryDate < now)
    description := f.description }

/-- GET /api/files body: the route first runs a filter whose both branches
return true (the commented-out 30-day cleanup), then maps every record to its
public projection, preserving the underlying storage order. -/
def listFiles (files : List FileRecord) (now : Int) : List PublicFile :=
  (files.filter (fun f => if f.expiryDate < now then true else true)).map
    (toPublicFile now)

/-- Outcome of the admin-session middleware as seen by the client. error400
is the response produced by the final error-handling middleware when the
handler throws (no MulterError case applies, so it answers 400 with the
thrown message). -/
inductive AuthOutcome where
  | allow
  | deny401
  | error400
deriving Repr, DecidableEq

/-- verifyAdminSession (server.js lines 149-160). The middleware evaluates
req.headers with the x-admin-token key, and when that value is falsy it falls
back to req.session.adminToken; no session middleware is installed, so
req.session is undefined and the member access throws a TypeError, which the
error middleware turns into a 400 response. When a truthy header token is
present, access is allowed iff it equals the recorded ADMIN_TOKEN exactly,
and denied with 401 otherwise (also when no token was ever recorded). -/
def verifyAdminSession (header : Option String) (recorded : Option String) :
    AuthOutcome :=
  match header with
  | none => .error400
  | some t =>
    if t = "" then .error400
    else if some t = recorded then .allow
    else .deny401

/-- Result of GET /api/download/:id before byte transfer. -/
inductive DownloadResult where
  | notFound
  | expired
  | physicalNotFound
  | served (filename : String)
deriving Repr, DecidableEq

/-- HTTP status attached to each download result by the route. -/
def downloadStatus : DownloadResult → Nat
  | .notFound => 404
  | .expired => 403
  | .physicalNotFound => 404
  | .served _ => 200

/-- In-place increment of the download counter of the first record with the
given id, as done through the object reference obtained from Array.find
before writeData persists the whole list. -/
def incrementFirst (fileId : String) : List FileRecord → List FileRecord
  | [] => []
  | f :: rest =>
    if f.id = fileId then
      { f with downloadCount := f.downloadCount + 1 } :: rest
    else
      f :: incrementFirst fileId rest

/-- GET /api/download/:id (server.js lines 200-238) up to the res.download
call: resolve the record, check expiry strictly against now, check physical
presence of the stored file, then increment the counter and persist the list
before initiating the transfer. Returns the result together with the
persisted registry state. physExists models fs.pathExists on the uploads
directory, keyed by stored filename. -/
def download (files : List FileRecord) (fileId : String) (now : Int)
    (physExists : String → Bool) : DownloadResult × List FileRecord :=
  match files.find? (fun f => f.id = fileId) with
  | none => (.notFound, files)
  | some f =>
    if f.expiryDate < now then (.expired, files)
    else if physExists f.storedFilename = false then (.physicalNotFound, files)
    else (.served f.filename, incrementFirst fileId files)

/-- The download route including the byte transfer: the counter update is
already persisted when res.download starts, and the error callback of
res.download only changes the HTTP outcome (500), never the stored list. -/
def downloadHandler (files : List FileRecord) (fileId : String) (now : Int)
    (physExists : String → Bool) (transferOk : Bool) : Nat × List FileRecord :=
  match download files fileId now physExists with
  | (.served _, updated) => (if transferOk then 200 else 500, updated)
  | (r, fs) => (downloadStatus r, fs)

/-- Sequential downloads: runs the download route n times in a row on the
registry state left by the previous one. -/
def iterateDownload (n : Nat) (files : List FileRecord) (fileId : String)
    (now : Int) (physExists : String → Bool) : List FileRecord :=
  match n with
  | 0 => files
  | m + 1 =>
    iterateDownload m (download files fileId now physExists).2 fileId now
      physExists

/-- The metadata fields the admin routes destructure from req.body: name,
network, expiryDate, description. The remaining fields model keys a client
could also submit in the payload; the routes never read them. expiryDate is
the parsed timestamp, none standing for a missing or empty date string. -/
structure MetaPayload where
  name : Option String := none
  network : Option String := none
  expiryDate : Option Int := none
  description : Option String := none
  idField : Option String := none
  downloadCountField : Option Nat := none
  createdAtField : Option Int := none
  filenameField : Option String := none
  storedFilenameField : Option String := none
deriving Repr

/-- The uploaded file object multer attaches to the request: originalname is
the user-supplied display name, filename the generated stored name, size the
byte count. -/
structure UploadedFile where
  originalname : String
  filename : String
  size : Nat
deriving Repr

/-- Error cases of POST /api/admin/files. -/
inductive CreateError where
  | noFile
  | missingFields
  | pastExpiry
deriving Repr, DecidableEq

/-- Observable outcome of POST /api/admin/files: the response, the persisted
registry state afterwards, and whether the just-stored upload was removed
from the uploads directory (fs.remove on the stored filename). -/
structure CreateOutcome where
  result : Except CreateError FileRecord
  files : List FileRecord
  uploadDeleted : Bool
deriving Repr

/-- The human-readable size units of formatFileSize, in order of magnitude. -/
def sizeUnits : List String := ["Bytes", "KB", "MB", "GB"]

/-- Rounding of num / den to the nearest hundredth, scaled by 100, ties
rounded up, matching toFixed(2) of ECMAScript on the exact quotient. -/
def roundHundredths (num : Nat) (den : Nat) : Nat :=
  (200 * num + den) / (2 * den)

/-- Decimal rendering of a number of hundredths the way
parseFloat(x.toFixed(2)) prints: trailing zeros of the fraction dropped, no
fraction part when it is zero. -/
def renderHundredths (h : Nat) : String :=
  let ip := h / 100
  let fr := h % 100
  if fr = 0 then toString ip
  else if fr % 10 = 0 then toString ip ++ "." ++ toString (fr / 10)
  else if fr < 10 then toString ip ++ ".0" ++ toString fr
  else toString ip ++ "." ++ toString fr

/-- formatFileSize (server.js lines 443-449): 0 becomes "0 Bytes"; otherwise
the unit index is the floor of the base-1024 logarithm, the value is the byte
count divided by 1024 to that index rendered to at most two decimals, and the
unit is looked up in sizes with no bounds check: past the end of the table
the JavaScript indexing yields undefined, concatenated as the string
"undefined". -/
def formatFileSize (bytes : Nat) : String :=
  if bytes = 0 then "0 Bytes"
  else
    let i := Nat.log 1024 bytes
    renderHundredths (roundHundredths bytes (1024 ^ i)) ++ " " ++
      sizeUnits.getD i "undefined"

/-- The size formatter as the specification words it: the unit index clamped
to the available units. Differs from formatFileSize only in the clamp. -/
def formatFileSizeClamped (bytes : Nat) : String :=
  if bytes = 0 then "0 Bytes"
  else
    let i := min (Nat.log 1024 bytes) 3
    renderHundredths (roundHundredths bytes (1024 ^ i)) ++ " " ++
      sizeUnits.getD i "undefined"

/-- POST /api/admin/files (server.js lines 282-336): reject when no file was
uploaded; then validate name, network, expiryDate for truthiness and the
expiry for being strictly in the future, deleting the stored upload on either
validation failure; on success append a fresh record built from the payload
and the uploaded file, with downloadCount 0 and createdAt now. -/
def createHandler (files : List FileRecord) (file : Option UploadedFile)
    (p : MetaPayload) (newId : String) (now : Int) : CreateOutcome :=
  match file with
  | none => ⟨.error .noFile, files, false⟩
  | some u =>
    if truthyStr p.name = false ∨ truthyStr p.network = false ∨
        p.expiryDate = none then
      ⟨.error .missingFields, files, true⟩
    else if p.expiryDate.getD 0 ≤ now then
      ⟨.error .pastExpiry, files, true⟩
    else
      let newFile : FileRecord :=
        { id := newId
          filename := u.originalname
          storedFilename := u.filename
          name := jsTrim (p.name.getD "")
          network := jsTrim (p.network.getD "")
          expiryDate := p.expiryDate.getD 0
          size := formatFileSize u.size
          description :=
            if truthyStr p.description then jsTrim (p.description.getD "")
            else ""
          downloadCount := 0
          createdAt := now }
      ⟨.ok newFile, files ++ [newFile], false⟩

/-- Error cases of PUT /api/admin/files/:id. -/
inductive UpdateError where
  | notFound
  | missingFields
  | pastExpiry
deriving Repr, DecidableEq

/-- The object-spread merge of the update route: only name, network,
expiryDate and description are overwritten, every other field of the stored
record is kept. -/
def applyPayload (f : FileRecord) (p : MetaPayload) : FileRecord :=
  { f with
    name := jsTrim (p.name.getD "")
    network := jsTrim (p.network.getD "")
    expiryDate := p.expiryDate.getD 0
    description :=
      if truthyStr p.description then jsTrim (p.description.getD "") else "" }

/-- Replacement of the first record with the given id by its merged update,
as files[fileIndex] = {...} does at the index found by findIndex. Returns
the new list together with the updated record, or none when no record
matches. -/
def updateFirst (fileId : String) (p : MetaPayload) :
    List FileRecord → Option (List FileRecord × FileRecord)
  | [] => none
  | f :: rest =>
    if f.id = fileId then
      some (applyPayload f p :: rest, applyPayload f p)
    else
      match updateFirst fileId p rest with
      | none => none
      | some (rest2, r) => some (f :: rest2, r)

/-- PUT /api/admin/files/:id (server.js lines 339-387): resolve the record
first (404 before validation), then run the same truthiness and future-expiry
validation as create, then merge the mutable fields into the stored record
and persist. -/
def updateFile (files : List FileRecord) (fileId : String) (p : MetaPayload)
    (now : Int) : Except UpdateError (List FileRecord × FileRecord) :=
  if (files.find? (fun f => f.id = fileId)).isNone then .error .notFound
  else if truthyStr p.name = false ∨ truthyStr p.network = false ∨
      p.expiryDate = none then
    .error .missingFields
  else if p.expiryDate.getD 0 ≤ now then .error .pastExpiry
  else
    match updateFirst fileId p files with
    | some res => .ok res
    | none => .error .notFound

/-- Response of POST /api/admin/login: the status, the token included in the
body on success, and the process-wide ADMIN_TOKEN recorded afterwards. -/
structure LoginOutcome where
  status : Nat
  token : Option String
  recorded : Option String
deriving Repr, DecidableEq

/-- POST /api/admin/login (server.js lines 245-279): reject a missing code or
a code whose length differs from 14 before any verification; then delegate to
the bcrypt comparison (modelled by the oracle verify); on success mint the
fresh uuid token and overwrite ADMIN_TOKEN with it, on failure answer 401 and
leave the recorded token unchanged. -/
def login (code : Option String) (verify : String → Bool)
    (freshToken : String) (recorded : Option String) : LoginOutcome :=
  match code with
  | none => ⟨400, none, recorded⟩
  | some c =>
    if c.length ≠ 14 then ⟨400, none, recorded⟩
    else if verify c then ⟨200, some freshToken, some freshToken⟩
    else ⟨401, none, recorded⟩

/-- readData (server.js lines 97-105): the raw outcome of reading and parsing
data/files.json is either the record list or an error; the catch block logs
the error and returns the empty list. -/
def readData (raw : Except String (List FileRecord)) : List FileRecord :=
  match raw with
  | .ok l => l
  | .error _ => []

/-- Response of GET /api/files. -/
structure ListResponse where
  status : Nat
  success : Bool
  files : List PublicFile
deriving Repr, DecidableEq

/-- GET /api/files end to end: readData never throws, so the route always
answers 200 with success true over whatever list readData produced. -/
def listEndpoint (raw : Except String (List FileRecord)) (now : Int) :
    ListResponse :=
  ⟨200, true, listFiles (readData raw) now⟩

/-- A concrete record used to evaluate the routes on explicit inputs. -/
def sampleRecord : FileRecord :=
  { id := "id-1"
    filename := "a.ovpn"
    storedFilename := "1700000000000-abc.ovpn"
    name := "Net1"
    network := "Home"
    expiryDate := 10
    size := "1 KB"
    description := ""
    downloadCount := 0
    createdAt := 1 }

/-- A second concrete record with a different id and a nonzero counter. -/
def sampleRecord2 : FileRecord :=
  { id := "id-2"
    filename := "b.conf"
    storedFilename := "1700000000001-def.conf"
    name := "Net2"
    network := "Office"
    expiryDate := 20
    size := "2 KB"
    description := "backup"
    downloadCount := 5
    createdAt := 2 }

/-- A concrete multer file object (size 0 keeps the derived size string at
the zero branch of formatFileSize). -/
def sampleUpload : UploadedFile :=
  { originalname := "a.ovpn"
    filename := "1700000000002-ghi.ovpn"
    size := 0 }

/-- A concrete update payload that also tries to smuggle values into the
immutable fields through extra body keys. -/
def sampleUpdatePayload : MetaPayload :=
  { name := some " New Name "
    network := some " Office "
    expiryDate := some 50
    description := some " notes "
    idField := some "spoofed-id"
    downloadCountField := some 99
    createdAtField := some 123
    filenameField := some "evil.txt"
    storedFilenameField := some "evil-stored.txt" }

/-- The record sampleRecord becomes under sampleUpdatePayload. -/
def updatedSample : FileRecord := applyPayload sampleRecord sampleUpdatePayload

/-- A concrete metadata payload whose expiry timestamp is in the past. -/
def pastPayload : MetaPayload :=
  { name := some "Net1"
    network := some "Home"
    expiryDate := some 3 }

/-- A concrete metadata payload whose name is whitespace only. -/
def wsPayload : MetaPayload :=
  { name := some " "
    network := some "Home"
    expiryDate := some 10 }

end NumLab

namespace NumLab

/-- C1: the claim says every privileged request without a matching token is
denied with 401, including when no token is presented. The middleware instead
evaluates req.session.adminToken whenever the x-admin-token header is falsy;
with no session middleware installed req.session is undefined, the member
access throws, and the error middleware answers 400, so the unauthenticated
no-token request never reaches the 401 branch. Presented-token behaviour is
as claimed: exact match allows, anything else is 401, also when no token was
ever recorded. -/
theorem c1_admin_auth_behavior :
    verifyAdminSession none none = .error400 ∧
    verifyAdminSession none (some "tok-a") = .error400 ∧
    verifyAdminSession (some "") (some "tok-a") = .error400 ∧
    verifyAdminSession (some "tok-a") none = .deny401 ∧
    verifyAdminSession (some "tok-b") (some "tok-a") = .deny401 ∧
    verifyAdminSession (some "tok-a") (some "tok-a") = .allow := by
  decide

/-- C2: the public listing returns every stored record in insertion order
(the cleanup filter keeps every record, expired or not), each mapped to the
storedFilename-free public projection, whose isExpired flag is true exactly
when the expiry timestamp is strictly before the current time. -/
theorem c2_list_public_projection (files : List FileRecord) (now : Int) :
    listFiles files now = files.map (toPublicFile now) ∧
    ∀ f : FileRecord,
      ((toPublicFile now f).isExpired = true ↔ f.expiryDate < now) := by
  constructor
  · unfold listFiles
    have h : (fun f : FileRecord => if f.expiryDate < now then true else true)
        = fun _ => true := funext fun f => ite_self true
    rw [h, List.filter_true]
  · intro f
    simp [toPublicFile]

/-- C3: the download route answers NotFound when no record has the requested
id, Forbidden when the found record is expired at the current time (for every
physical-presence oracle, so even when the bytes exist the expired branch
wins and nothing is served), and NotFound when the record exists unexpired
but its stored bytes are missing; in each case the registry is unchanged. -/
theorem c3_download_errors (files : List FileRecord) (fileId : String)
    (now : Int) (physExists : String → Bool) :
    ((∀ f ∈ files, f.id ≠ fileId) →
      download files fileId now physExists = (.notFound, files)) ∧
    (∀ f, files.find? (fun g => g.id = fileId) = some f →
      f.expiryDate < now →
      download files fileId now physExists = (.expired, files) ∧
      downloadStatus (download files fileId now physExists).1 = 403) ∧
    (∀ f, files.find? (fun g => g.id = fileId) = some f →
      ¬ f.expiryDate < now → physExists f.storedFilename = false →
      download files fileId now physExists = (.physicalNotFound, files) ∧
      downloadStatus (download files fileId now physExists).1 = 404) := by
  refine ⟨?_, ?_, ?_⟩
  · intro h
    have hn : files.find? (fun g => g.id = fileId) = none :=
      List.find?_eq_none.2 (by intro x hx; simpa using h x hx)
    unfold download
    rw [hn]
  · intro f hf hexp
    unfold download
    rw [hf]
    simp only [if_pos hexp]
    exact ⟨trivial, rfl⟩
  · intro f hf hexp hphys
    unfold download
    rw [hf]
    simp only [if_neg hexp, if_pos hphys]
    exact ⟨trivial, rfl⟩

/-- Evaluation of c3_download_errors on explicit registries: an unknown id, a
record expired at the call time with the bytes present, and an unexpired
record whose bytes are missing. -/
theorem c3_download_errors_witness :
    download [sampleRecord] "missing" 5 (fun _ => true) =
      (.notFound, [sampleRecord]) ∧
    (download [sampleRecord] "id-1" 99 (fun _ => true) =
      (.expired, [sampleRecord]) ∧
      downloadStatus (download [sampleRecord] "id-1" 99 (fun _ => true)).1 =
        403) ∧
    (download [sampleRecord] "id-1" 5 (fun _ => false) =
      (.physicalNotFound, [sampleRecord]) ∧
      downloadStatus (download [sampleRecord] "id-1" 5 (fun _ => false)).1 =
        404) :=
  ⟨(c3_download_errors [sampleRecord] "missing" 5 (fun _ => true)).1
      (by decide),
   (c3_download_errors [sampleRecord] "id-1" 99 (fun _ => true)).2.1
      sampleRecord (by decide) (by decide),
   (c3_download_errors [sampleRecord] "id-1" 5 (fun _ => false)).2.2
      sampleRecord (by decide) (by decide) (by decide)⟩

/-- The record returned by a successful updateFirst is the payload merge of
the first stored record with the requested id. -/
theorem updateFirst_find (fileId : String) (p : MetaPayload) :
    ∀ (files files2 : List FileRecord) (r : FileRecord),
      updateFirst fileId p files = some (files2, r) →
      ∃ f, files.find? (fun g => g.id = fileId) = some f ∧
        r = applyPayload f p := by
  intro files
  induction files with
  | nil =>
    intro files2 r h
    exact absurd h (by simp [updateFirst])
  | cons f rest ih =>
    intro files2 r h
    unfold updateFirst at h
    by_cases hid : f.id = fileId
    · rw [if_pos hid] at h
      simp only [Option.some.injEq, Prod.mk.injEq] at h
      exact ⟨f, by simp [List.find?_cons_of_pos, hid], h.2.symm⟩
    · rw [if_neg hid] at h
      cases hrec : updateFirst fileId p rest with
      | none =>
        rw [hrec] at h
        exact absurd h (by simp)
      | some pr =>
        obtain ⟨rest2, r0⟩ := pr
        rw [hrec] at h
        simp only [Option.some.injEq, Prod.mk.injEq] at h
        obtain ⟨f0, hfind, hr0⟩ := ih rest2 r0 hrec
        refine ⟨f0, ?_, ?_⟩
        · rw [List.find?_cons_of_neg _ (by simpa using hid)]
          exact hfind
        · rw [← h.2]
          exact hr0

/-- C4: whenever the update route succeeds, the returned record keeps the id,
storedFilename, downloadCount, createdAt, filename and size of the stored
record it replaces, and only name, network, expiryDate and description come
from the payload, whatever extra fields the payload carries. -/
theorem c4_update_preserves_immutable (files : List FileRecord)
    (fileId : String) (p : MetaPayload) (now : Int)
    (files2 : List FileRecord) (r f : FileRecord)
    (hok : updateFile files fileId p now = .ok (files2, r))
    (hf : files.find? (fun g => g.id = fileId) = some f) :
    r.id = f.id ∧ r.storedFilename = f.storedFilename ∧
    r.downloadCount = f.downloadCount ∧ r.createdAt = f.createdAt ∧
    r.filename = f.filename ∧ r.size = f.size ∧
    r.name = jsTrim (p.name.getD "") ∧ r.network = jsTrim (p.network.getD "") ∧
    r.expiryDate = p.expiryDate.getD 0 ∧
    r.description =
      (if truthyStr p.description then jsTrim (p.description.getD "")
       else "") := by
  unfold updateFile at hok
  rw [hf] at hok
  simp only [Option.isNone_some] at hok
  split at hok
  · exact absurd hok (by simp)
  · split at hok
    · exact absurd hok (by simp)
    · split at hok
      · exact absurd hok (by simp)
      · cases hrec : updateFirst fileId p files with
        | none =>
          rw [hrec] at hok
          exact absurd hok (by simp)
        | some pr =>
          obtain ⟨files0, r0⟩ := pr
          rw [hrec] at hok
          simp only [Except.ok.injEq, Prod.mk.injEq] at hok
          obtain ⟨f0, hfind, hr0⟩ := updateFirst_find fileId p files files0 r0 hrec
          have hff : f0 = f := by
            rw [hf] at hfind
            exact (Option.some.inj hfind).symm
          subst hff
          rw [← hok.2, hr0]
          simp [applyPayload]

/-- Evaluation of c4_update_preserves_immutable on an explicit registry and a
payload that also submits spoofed immutable fields. -/
theorem c4_update_preserves_immutable_witness :
    updatedSample.id = sampleRecord.id ∧
    updatedSample.storedFilename = sampleRecord.storedFilename ∧
    updatedSample.downloadCount = sampleRecord.downloadCount ∧
    updatedSample.createdAt = sampleRecord.createdAt ∧
    updatedSample.filename = sampleRecord.filename ∧
    updatedSample.size = sampleRecord.size ∧
    updatedSample.name = jsTrim (sampleUpdatePayload.name.getD "") ∧
    updatedSample.network = jsTrim (sampleUpdatePayload.network.getD "") ∧
    updatedSample.expiryDate = sampleUpdatePayload.expiryDate.getD 0 ∧
    updatedSample.description =
      (if truthyStr sampleUpdatePayload.description then
        jsTrim (sampleUpdatePayload.description.getD "")
       else "") :=
  c4_update_preserves_immutable [sampleRecord] "id-1" sampleUpdatePayload 5
    [updatedSample] updatedSample sampleRecord rfl rfl

/-- C5: whenever the metadata of an upload fails validation (name, network or
expiry date missing, or expiry at or before the current time), the create
route reports a validation error, leaves the registry unchanged, and removes
the just-stored upload from the uploads directory. -/
theorem c5_create_validation_cleanup (files : List FileRecord)
    (u : UploadedFile) (p : MetaPayload) (newId : String) (now : Int)
    (h : p.name = none ∨ p.network = none ∨ p.expiryDate = none ∨
      ∃ d, p.expiryDate = some d ∧ d ≤ now) :
    ((createHandler files (some u) p newId now).result =
        .error .missingFields ∨
     (createHandler files (some u) p newId now).result =
        .error .pastExpiry) ∧
    (createHandler files (some u) p newId now).files = files ∧
    (createHandler files (some u) p newId now).uploadDeleted = true := by
  simp only [createHandler]
  rcases h with h | h | h | ⟨d, hd, hle⟩
  · rw [if_pos (Or.inl (by rw [h]; rfl))]
    exact ⟨Or.inl rfl, rfl, rfl⟩
  · rw [if_pos (Or.inr (Or.inl (by rw [h]; rfl)))]
    exact ⟨Or.inl rfl, rfl, rfl⟩
  · rw [if_pos (Or.inr (Or.inr h))]
    exact ⟨Or.inl rfl, rfl, rfl⟩
  · by_cases hval : truthyStr p.name = false ∨ truthyStr p.network = false ∨
        p.expiryDate = none
    · rw [if_pos hval]
      exact ⟨Or.inl rfl, rfl, rfl⟩
    · rw [if_neg hval, if_pos (by rw [hd]; exact hle)]
      exact ⟨Or.inr rfl, rfl, rfl⟩

/-- Evaluation of c5_create_validation_cleanup on an upload whose expiry
timestamp 3 is before the current time 10, all other fields valid. -/
theorem c5_create_validation_cleanup_witness :
    ((createHandler [] (some sampleUpload) pastPayload "id-9" 10).result =
        .error .missingFields ∨
     (createHandler [] (some sampleUpload) pastPayload "id-9" 10).result =
        .error .pastExpiry) ∧
    (createHandler [] (some sampleUpload) pastPayload "id-9" 10).files = [] ∧
    (createHandler [] (some sampleUpload) pastPayload "id-9" 10).uploadDeleted
      = true :=
  c5_create_validation_cleanup [] sampleUpload pastPayload "id-9" 10
    (Or.inr (Or.inr (Or.inr ⟨3, rfl, by decide⟩)))

/-- Incrementing through the reference found by Array.find bumps the counter
of exactly the first record with the requested id, so looking it up again
yields the same record with downloadCount one higher. -/
theorem find?_incrementFirst (fileId : String) :
    ∀ (files : List FileRecord) (f : FileRecord),
      files.find? (fun g => g.id = fileId) = some f →
      (incrementFirst fileId files).find? (fun g => g.id = fileId) =
        some { f with downloadCount := f.downloadCount + 1 } := by
  intro files
  induction files with
  | nil =>
    intro f h
    simp at h
  | cons f0 rest ih =>
    intro f h
    by_cases hid : f0.id = fileId
    · rw [List.find?_cons_of_pos _ (by simpa using hid)] at h
      injection h with h1
      subst h1
      unfold incrementFirst
      rw [if_pos hid]
      rw [List.find?_cons_of_pos _ (by simpa using hid)]
    · rw [List.find?_cons_of_neg _ (by simpa using hid)] at h
      unfold incrementFirst
      rw [if_neg hid]
      rw [List.find?_cons_of_neg _ (by simpa using hid)]
      exact ih f h

/-- Running the download route n times in a row on a resolvable, unexpired,
physically present record leaves the registry with that record holding its
original counter plus n. -/
theorem iterateDownload_count (fileId : String) (now : Int)
    (physExists : String → Bool) :
    ∀ (n : Nat) (files : List FileRecord) (f : FileRecord),
      files.find? (fun g => g.id = fileId) = some f →
      ¬ f.expiryDate < now →
      physExists f.storedFilename = true →
      (iterateDownload n files fileId now physExists).find?
          (fun g => g.id = fileId) =
        some { f with downloadCount := f.downloadCount + n } := by
  intro n
  induction n with
  | zero =>
    intro files f hf _ _
    exact hf
  | succ m ih =>
    intro files f hf hexp hphys
    have hdl : download files fileId now physExists =
        (.served f.filename, incrementFirst fileId files) := by
      unfold download
      rw [hf]
      simp only [if_neg hexp]
      rw [if_neg (by simp [hphys])]
    unfold iterateDownload
    rw [hdl]
    have hf2 := find?_incrementFirst fileId files f hf
    have hrec := ih (incrementFirst fileId files)
      { f with downloadCount := f.downloadCount + 1 } hf2
      (by simpa using hexp) (by simpa using hphys)
    have harith : f.downloadCount + (m + 1) = f.downloadCount + 1 + m := by
      omega
    rw [show ({ f with downloadCount := f.downloadCount + (m + 1) } :
        FileRecord) =
      { f with downloadCount := f.downloadCount + 1 + m } from by
        rw [harith]]
    exact hrec

/-- C6: when a download succeeds, the persisted registry is exactly the old
one with the resolved record incremented by one; the persisted state does not
depend on whether the byte transfer afterwards succeeds; and n sequential
successful downloads of the same id add exactly n to that record's counter
(so a fresh record reaches counter n after n downloads). -/
theorem c6_download_counter (files : List FileRecord) (fileId : String)
    (now : Int) (physExists : String → Bool) (f : FileRecord) (n : Nat)
    (hf : files.find? (fun g => g.id = fileId) = some f)
    (hexp : ¬ f.expiryDate < now)
    (hphys : physExists f.storedFilename = true) :
    download files fileId now physExists =
      (.served f.filename, incrementFirst fileId files) ∧
    (∀ ok : Bool,
      (downloadHandler files fileId now physExists ok).2 =
        incrementFirst fileId files) ∧
    (iterateDownload n files fileId now physExists).find?
        (fun g => g.id = fileId) =
      some { f with downloadCount := f.downloadCount + n } := by
  have hdl : download files fileId now physExists =
      (.served f.filename, incrementFirst fileId files) := by
    unfold download
    rw [hf]
    simp only [if_neg hexp]
    rw [if_neg (by simp [hphys])]
  refine ⟨hdl, ?_, ?_⟩
  · intro ok
    unfold downloadHandler
    rw [hdl]
  · exact iterateDownload_count fileId now physExists n files f hf hexp hphys

/-- Evaluation of c6_download_counter: three sequential downloads of the
record with id-2 (counter 5, unexpired at time 15, bytes present) leave its
counter at 8, and the persisted state ignores the transfer outcome. -/
theorem c6_download_counter_witness :
    download [sampleRecord, sampleRecord2] "id-2" 15 (fun _ => true) =
      (.served sampleRecord2.filename,
        incrementFirst "id-2" [sampleRecord, sampleRecord2]) ∧
    (∀ ok : Bool,
      (downloadHandler [sampleRecord, sampleRecord2] "id-2" 15 (fun _ => true)
          ok).2 =
        incrementFirst "id-2" [sampleRecord, sampleRecord2]) ∧
    (iterateDownload 3 [sampleRecord, sampleRecord2] "id-2" 15
        (fun _ => true)).find? (fun g => g.id = "id-2") =
      some { sampleRecord2 with
        downloadCount := sampleRecord2.downloadCount + 3 } :=
  c6_download_counter [sampleRecord, sampleRecord2] "id-2" 15 (fun _ => true)
    sampleRecord2 3 (by decide) (by decide) rfl

/-- C7: a missing code or one whose length differs from 14 is rejected with
400 before verification (the outcome is the same for every verifier and no
token is issued); a 14-character code the verifier refuses yields 401, no
token, and leaves the recorded token unchanged; a verified code yields 200
with a fresh token that becomes the single recorded admin token, and any
differing previously issued token is then denied by the session middleware. -/
theorem c7_login_behaviour (code : Option String) (verify : String → Bool)
    (freshToken : String) (recorded : Option String) :
    ((code = none ∨ ∀ c, code = some c → c.length ≠ 14) →
      (login code verify freshToken recorded = ⟨400, none, recorded⟩ ∧
       ∀ verify2 : String → Bool,
         login code verify2 freshToken recorded =
           login code verify freshToken recorded)) ∧
    (∀ c, code = some c → c.length = 14 → verify c = false →
      login code verify freshToken recorded = ⟨401, none, recorded⟩) ∧
    (∀ c, code = some c → c.length = 14 → verify c = true →
      (login code verify freshToken recorded =
        ⟨200, some freshToken, some freshToken⟩ ∧
       ∀ old : String, old ≠ "" → old ≠ freshToken →
         verifyAdminSession (some old) (some freshToken) = .deny401)) := by
  refine ⟨?_, ?_, ?_⟩
  · intro h
    rcases code with _ | c
    · exact ⟨rfl, fun verify2 => rfl⟩
    · rcases h with h | h
      · exact absurd h (by simp)
      · have hlen : c.length ≠ 14 := h c rfl
        constructor
        · simp only [login]
          rw [if_pos hlen]
        · intro verify2
          simp only [login]
          rw [if_pos hlen, if_pos hlen]
  · intro c hc hlen hv
    subst hc
    simp only [login]
    rw [if_neg (by simp [hlen]), if_neg (by simp [hv])]
  · intro c hc hlen hv
    subst hc
    constructor
    · simp only [login]
      rw [if_neg (by simp [hlen]), if_pos hv]
    · intro old hne hneq
      simp only [verifyAdminSession]
      rw [if_neg hne, if_neg (by simp [hneq])]

/-- Evaluation of c7_login_behaviour: a 3-character code is rejected with 400
for every verifier; a 14-character wrong code gets 401 and the recorded token
stays tok-a; the correct 14-character code gets 200, records tok-b, and the
old token tok-a is then denied. -/
theorem c7_login_behaviour_witness :
    (login (some "123") (fun c => c == "12345678901234") "tok-b"
        (some "tok-a") = ⟨400, none, some "tok-a"⟩ ∧
     ∀ verify2 : String → Bool,
       login (some "123") verify2 "tok-b" (some "tok-a") =
         login (some "123") (fun c => c == "12345678901234") "tok-b"
           (some "tok-a")) ∧
    login (some "00000000000000") (fun c => c == "12345678901234") "tok-b"
      (some "tok-a") = ⟨401, none, some "tok-a"⟩ ∧
    (login (some "12345678901234") (fun c => c == "12345678901234") "tok-b"
        (some "tok-a") = ⟨200, some "tok-b", some "tok-b"⟩ ∧
     verifyAdminSession (some "tok-a") (some "tok-b") = .deny401) :=
  ⟨(c7_login_behaviour (some "123") (fun c => c == "12345678901234") "tok-b"
      (some "tok-a")).1
      (Or.inr (by intro c hc; cases hc; decide)),
   (c7_login_behaviour (some "00000000000000")
      (fun c => c == "12345678901234") "tok-b" (some "tok-a")).2.1
      "00000000000000" rfl (by decide) (by decide),
   ((c7_login_behaviour (some "12345678901234")
      (fun c => c == "12345678901234") "tok-b" (some "tok-a")).2.2
      "12345678901234" rfl (by decide) (by decide)).1,
   ((c7_login_behaviour (some "12345678901234")
      (fun c => c == "12345678901234") "tok-b" (some "tok-a")).2.2
      "12345678901234" rfl (by decide) (by decide)).2 "tok-a" (by decide)
      (by decide)⟩

/-- C8 counterexample: a create whose name is the single space passes the
truthiness validation and is stored with name trimmed to the empty string, so
the registry does hold a record whose trimmed name is empty. -/
theorem c8_whitespace_name_stored :
    (createHandler [] (some sampleUpload) wsPayload "id-7" 0).files.map
      (fun r => r.name) = [""] ∧
    (createHandler [] (some sampleUpload) wsPayload "id-7" 0).files.map
      (fun r => jsTrim r.name) = [""] ∧
    ∃ r, (createHandler [] (some sampleUpload) wsPayload "id-7" 0).result =
      .ok r := by
  refine ⟨by decide, by decide, ?_⟩
  exact ⟨_, rfl⟩

/-- C8 amended: create and update reject a missing or empty name or network
(JavaScript falsiness), and any record they store carries the trimmed
submitted values; a whitespace-only name or network, however, passes the
check and is stored as the empty string after trimming. -/
theorem c8_trim_validation (files : List FileRecord) (u : UploadedFile)
    (p : MetaPayload) (newId : String) (now : Int) (fileId : String) :
    ((p.name = none ∨ p.name = some "" ∨ p.network = none ∨
        p.network = some "") →
      ((createHandler files (some u) p newId now).result =
          .error .missingFields ∧
       ∀ res, updateFile files fileId p now ≠ .ok res)) ∧
    (∀ r, (createHandler files (some u) p newId now).result = .ok r →
      r.name = jsTrim (p.name.getD "") ∧
      r.network = jsTrim (p.network.getD "")) ∧
    (∀ files2 r, updateFile files fileId p now = .ok (files2, r) →
      r.name = jsTrim (p.name.getD "") ∧
      r.network = jsTrim (p.network.getD "")) := by
  refine ⟨?_, ?_, ?_⟩
  · intro h
    have hval : truthyStr p.name = false ∨ truthyStr p.network = false ∨
        p.expiryDate = none := by
      rcases h with h | h | h | h
      · exact Or.inl (by rw [h]; rfl)
      · exact Or.inl (by rw [h]; rfl)
      · exact Or.inr (Or.inl (by rw [h]; rfl))
      · exact Or.inr (Or.inl (by rw [h]; rfl))
    constructor
    · simp only [createHandler]
      rw [if_pos hval]
    · intro res hok
      unfold updateFile at hok
      split at hok <;> exact absurd hok (by simp)
  · intro r hok
    by_cases h1 : truthyStr p.name = false ∨ truthyStr p.network = false ∨
        p.expiryDate = none
    · simp only [createHandler, if_pos h1] at hok
      exact absurd hok (by simp)
    · by_cases h2 : p.expiryDate.getD 0 ≤ now
      · simp only [createHandler, if_neg h1, if_pos h2] at hok
        exact absurd hok (by simp)
      · simp only [createHandler, if_neg h1, if_neg h2,
          Except.ok.injEq] at hok
        subst hok
        exact ⟨rfl, rfl⟩
  · intro files2 r hok
    unfold updateFile at hok
    split at hok
    · exact absurd hok (by simp)
    · split at hok
      · exact absurd hok (by simp)
      · split at hok
        · exact absurd hok (by simp)
        · cases hrec : updateFirst fileId p files with
          | none =>
            rw [hrec] at hok
            exact absurd hok (by simp)
          | some pr =>
            obtain ⟨files0, r0⟩ := pr
            rw [hrec] at hok
            simp only [Except.ok.injEq, Prod.mk.injEq] at hok
            obtain ⟨f0, _, hr0⟩ :=
              updateFirst_find fileId p files files0 r0 hrec
            rw [← hok.2, hr0]
            exact ⟨rfl, rfl⟩

/-- Evaluation of c8_trim_validation: an empty name is rejected by both
routes, and a successful update stores the trimmed name and network. -/
theorem c8_trim_validation_witness :
    ((createHandler [sampleRecord] (some sampleUpload)
        { name := some "", network := some "Home", expiryDate := some 10 }
        "id-8" 0).result = .error .missingFields ∧
     ∀ res, updateFile [sampleRecord] "id-1"
        { name := some "", network := some "Home", expiryDate := some 10 }
        0 ≠ .ok res) ∧
    (updatedSample.name = jsTrim (sampleUpdatePayload.name.getD "") ∧
     updatedSample.network = jsTrim (sampleUpdatePayload.network.getD "")) :=
  ⟨(c8_trim_validation [sampleRecord] sampleUpload
      { name := some "", network := some "Home", expiryDate := some 10 }
      "id-8" 0 "id-1").1 (Or.inr (Or.inl rfl)),
   (c8_trim_validation [sampleRecord] sampleUpload sampleUpdatePayload
      "id-8" 5 "id-1").2.2 [updatedSample] updatedSample rfl⟩

/-- Unfolding of formatFileSize on a nonzero byte count. -/
theorem formatFileSize_pos (bytes : Nat) (h : bytes ≠ 0) :
    formatFileSize bytes =
      renderHundredths (roundHundredths bytes (1024 ^ Nat.log 1024 bytes)) ++
        " " ++ sizeUnits.getD (Nat.log 1024 bytes) "undefined" := by
  unfold formatFileSize
  rw [if_neg h]

/-- Unfolding of formatFileSizeClamped on a nonzero byte count. -/
theorem formatFileSizeClamped_pos (bytes : Nat) (h : bytes ≠ 0) :
    formatFileSizeClamped bytes =
      renderHundredths (roundHundredths bytes
          (1024 ^ min (Nat.log 1024 bytes) 3)) ++
        " " ++ sizeUnits.getD (min (Nat.log 1024 bytes) 3) "undefined" := by
  unfold formatFileSizeClamped
  rw [if_neg h]

/-- C9 counterexample: the claim clamps the unit index to the unit table,
but formatFileSize indexes past the table for one tebibyte and produces the
literal string "1 undefined" instead of the clamped "1024 GB". -/
theorem c9_no_clamp_counterexample :
    formatFileSize (1024 ^ 4) = "1 undefined" ∧
    formatFileSizeClamped (1024 ^ 4) = "1024 GB" ∧
    formatFileSize (1024 ^ 4) ≠ formatFileSizeClamped (1024 ^ 4) := by
  have h4 : Nat.log 1024 (1024 ^ 4) = 4 := Nat.log_pow (by norm_num) 4
  have e1 : formatFileSize (1024 ^ 4) = "1 undefined" := by
    rw [formatFileSize_pos _ (by norm_num), h4]
    decide
  have e2 : formatFileSizeClamped (1024 ^ 4) = "1024 GB" := by
    rw [formatFileSizeClamped_pos _ (by norm_num), h4]
    decide
  exact ⟨e1, e2, by rw [e1, e2]; decide⟩

/-- C9 amended: 0 maps to "0 Bytes", 1024 to "1 KB", 1536 to "1.5 KB" and
1048576 to "1 MB"; below one tebibyte the floor base-1024 logarithm stays
within the unit table so the unclamped code agrees with the clamped formula
of the claim; from one tebibyte on the lookup falls off the table and the
suffix is the string "undefined" rather than a clamped unit. -/
theorem c9_format_size :
    formatFileSize 0 = "0 Bytes" ∧
    formatFileSize 1024 = "1 KB" ∧
    formatFileSize 1536 = "1.5 KB" ∧
    formatFileSize 1048576 = "1 MB" ∧
    (∀ b : Nat, b < 1024 ^ 4 → formatFileSize b = formatFileSizeClamped b) ∧
    (∀ b : Nat, 1024 ^ 4 ≤ b →
      formatFileSize b =
        renderHundredths (roundHundredths b (1024 ^ Nat.log 1024 b)) ++
          " " ++ "undefined") := by
  have l1 : Nat.log 1024 1024 = 1 :=
    Nat.log_eq_of_pow_le_of_lt_pow (by norm_num) (by norm_num)
  have l2 : Nat.log 1024 1536 = 1 :=
    Nat.log_eq_of_pow_le_of_lt_pow (by norm_num) (by norm_num)
  have l3 : Nat.log 1024 1048576 = 2 :=
    Nat.log_eq_of_pow_le_of_lt_pow (by norm_num) (by norm_num)
  refine ⟨by decide, ?_, ?_, ?_, ?_, ?_⟩
  · rw [formatFileSize_pos _ (by norm_num), l1]
    decide
  · rw [formatFileSize_pos _ (by norm_num), l2]
    decide
  · rw [formatFileSize_pos _ (by norm_num), l3]
    decide
  · intro b hb
    by_cases hb0 : b = 0
    · subst hb0
      decide
    · have hlt : Nat.log 1024 b < 4 := Nat.log_lt_of_lt_pow hb0 hb
      have hmin : min (Nat.log 1024 b) 3 = Nat.log 1024 b :=
        Nat.min_eq_left (by omega)
      rw [formatFileSize_pos b hb0, formatFileSizeClamped_pos b hb0, hmin]
  · intro b hb
    have hb0 : b ≠ 0 := by
      intro h0
      rw [h0] at hb
      exact absurd hb (by norm_num)
    have hle : 4 ≤ Nat.log 1024 b :=
      (Nat.pow_le_iff_le_log (by norm_num) hb0).1 hb
    rw [formatFileSize_pos b hb0]
    have hnone : sizeUnits.getD (Nat.log 1024 b) "undefined" = "undefined" := by
      rw [List.getD_eq_getElem?_getD, List.getElem?_eq_none (by
        simpa [sizeUnits] using hle)]
      rfl
    rw [hnone]

/-- Evaluation of c9_format_size: at 123456789 bytes (under one tebibyte)
the code agrees with the clamped formula, and at exactly one tebibyte the
unit suffix degenerates to "undefined". -/
theorem c9_format_size_witness :
    formatFileSize 123456789 = formatFileSizeClamped 123456789 ∧
    formatFileSize (1024 ^ 4) =
      renderHundredths (roundHundredths (1024 ^ 4)
          (1024 ^ Nat.log 1024 (1024 ^ 4))) ++
        " " ++ "undefined" :=
  ⟨c9_format_size.2.2.2.2.1 123456789 (by norm_num),
   c9_format_size.2.2.2.2.2 (1024 ^ 4) (by norm_num)⟩

/-- C10 counterexample: when reading the persisted list fails, readData
swallows the error and returns the empty list, and the listing endpoint then
answers 200 with success true and an empty file list instead of reporting a
storage error with success false. -/
theorem c10_read_failure_silent :
    readData (Except.error "EACCES: permission denied") = [] ∧
    listEndpoint (Except.error "EACCES: permission denied") 0 =
      ⟨200, true, []⟩ := by
  decide

/-- C10 amended: a failed read of the persisted list is logged and turned
into the empty list, so callers proceed as if the registry were empty; in
particular the listing endpoint reports success true, status 200 and no
files rather than a storage error. -/
theorem c10_read_failure_returns_empty (e : String) (now : Int) :
    readData (Except.error e) = [] ∧
    (listEndpoint (Except.error e) now).success = true ∧
    (listEndpoint (Except.error e) now).status = 200 ∧
    (listEndpoint (Except.error e) now).files = [] := by
  exact ⟨rfl, rfl, rfl, rfl⟩

end NumLab
